import Mathlib

/-!
Verification development for `design_system_adapter.py` (class `DesignSystemAdapter`).

Modelling conventions:
* Python floats are modelled as exact rationals (`ℚ`); all arithmetic in the
  source is elementary except the `** 2.4` power inside the WCAG luminance
  formula, which is transcendental and is therefore modelled as an explicit
  function parameter `pow24 : ℚ → ℚ` threaded through the contrast analyzer.
  No claim settled here depends on the value of that power.
* The external collaborators `cv2.imread`/`cv2.resize` and
  `sklearn.cluster.KMeans(n_clusters, random_state=42, n_init=10).fit` are not
  code of this repository.  Their combined output on the adapter's stored image
  (the fitted cluster centers and the per-pixel labels) is deterministic given
  the image and the fixed seed, and is modelled as the adapter field
  `kmeansOut : ℕ → KMeansOut` (a function of `n_clusters`).  Everything the
  repository's own code does with that output is embedded faithfully.
* Python `dict`s (insertion ordered, unique keys) are modelled as association
  lists with `dictSet` (replace-in-place or append) and first-match lookup.
* Python exceptions are modelled with `Except PyErr`; `ℚ` division is total
  (`x / 0 = 0`) but every division performed by the embedded code has a
  provably nonzero denominator on valid color inputs.
-/

/-- Kinds of Python exceptions the embedded code can raise. -/
inductive PyErr where
  | keyError : String → PyErr
  | indexError : PyErr
  | valueError : PyErr
deriving DecidableEq, Repr

/-- Explicit bind for `Except PyErr`, used instead of `do` notation so proofs
can unfold each sequencing step directly. -/
def exb {α β : Type} (x : Except PyErr α) (f : α → Except PyErr β) : Except PyErr β :=
  match x with
  | .error e => .error e
  | .ok a => f a

/-- An integer RGB triple (a dominant color / `[int, int, int]` in Python). -/
abbrev RGB := ℤ × ℤ × ℤ

/-- A real-valued color triple (a k-means centroid or a normalized color). -/
abbrev Color3 := ℚ × ℚ × ℚ

/-- `self.color_palette`: insertion-ordered mapping role name → hex string. -/
abbrev Palette := List (String × String)

/-- The floor of a rational, computed directly on the numerator and
denominator (Lean's `Int` division is Euclidean, hence the floor here since
denominators are positive).  Kept free of the `FloorRing` class so that all
embedded computations reduce inside the kernel. -/
def ratFloor (q : ℚ) : ℤ := q.num / q.den

/-- Python `int(x)` / numpy `astype(int)`: truncation toward zero. -/
def pytrunc (q : ℚ) : ℤ :=
  if q < 0 then -ratFloor (-q) else ratFloor q

/-- Python `x % 1.0` on floats: the fractional part (sign of the divisor). -/
def pymod1 (q : ℚ) : ℚ := q - ratFloor q

/-- Round to the nearest integer, ties to even (Python `round` semantics). -/
def roundHalfEven (q : ℚ) : ℤ :=
  let f := ratFloor q
  let r := q - f
  if r < 1/2 then f
  else if 1/2 < r then f + 1
  else if f % 2 = 0 then f else f + 1

/-- Python `round(x, 2)`. -/
def round2 (q : ℚ) : ℚ := (roundHalfEven (q * 100) : ℚ) / 100

/-- Python `f"{n:02x}"`: lowercase hex, zero-padded to two digits. -/
def toHex2 (n : ℤ) : String :=
  let ds := Nat.toDigits 16 n.natAbs
  if n < 0 then "-" ++ String.mk ds
  else String.mk (if ds.length < 2 then '0' :: ds else ds)

/-- `DesignSystemAdapter._rgb_to_hex`. -/
def rgb_to_hex (c : RGB) : String :=
  "#" ++ toHex2 c.1 ++ toHex2 c.2.1 ++ toHex2 c.2.2

/-- Value of a single hexadecimal digit character, if valid. -/
def hexCharVal? (c : Char) : Option ℕ :=
  if '0' ≤ c ∧ c ≤ '9' then some (c.toNat - 48)
  else if 'a' ≤ c ∧ c ≤ 'f' then some (c.toNat - 87)
  else if 'A' ≤ c ∧ c ≤ 'F' then some (c.toNat - 55)
  else none

/-- Python `int(s, 16)`: fails (`ValueError`) on an empty or non-hex string. -/
def int_hex (cs : List Char) : Except PyErr ℕ :=
  if cs.isEmpty then .error .valueError
  else
    match cs.foldl (fun acc c =>
        match acc, hexCharVal? c with
        | some a, some d => some (a * 16 + d)
        | _, _ => none) (some 0) with
    | some v => .ok v
    | none => .error .valueError

/-- `colorsys.rgb_to_hsv` (CPython), channels in `[0,1]`, over `ℚ`. -/
def rgb_to_hsv (r g b : ℚ) : ℚ × ℚ × ℚ :=
  let maxc := max r (max g b)
  let minc := min r (min g b)
  let v := maxc
  if minc = maxc then (0, 0, v)
  else
    let s := (maxc - minc) / maxc
    let rc := (maxc - r) / (maxc - minc)
    let gc := (maxc - g) / (maxc - minc)
    let bc := (maxc - b) / (maxc - minc)
    let h := if r = maxc then bc - gc
             else if g = maxc then 2 + rc - bc
             else 4 + gc - rc
    (pymod1 (h / 6), s, v)

/-- `colorsys.hsv_to_rgb` (CPython), over `ℚ`.  Integer `%` in Python and the
Lean `Int` `%` agree (both floor-style for a positive modulus). -/
def hsv_to_rgb (h s v : ℚ) : ℚ × ℚ × ℚ :=
  if s = 0 then (v, v, v)
  else
    let i0 := pytrunc (h * 6)
    let f := h * 6 - (i0 : ℚ)
    let p := v * (1 - s)
    let q := v * (1 - s * f)
    let t := v * (1 - s * (1 - f))
    let i := i0 % 6
    if i = 0 then (v, t, p)
    else if i = 1 then (q, v, p)
    else if i = 2 then (p, v, t)
    else if i = 3 then (p, q, v)
    else if i = 4 then (t, p, v)
    else (v, p, q)

/-- `[int(c * 255) for c in rgb]`. -/
def int255 (c : Color3) : RGB :=
  (pytrunc (c.1 * 255), pytrunc (c.2.1 * 255), pytrunc (c.2.2 * 255))

/-- `DesignSystemAdapter._adjust_brightness`. -/
def adjust_brightness (c : RGB) (factor : ℚ) : RGB :=
  let hsv := rgb_to_hsv ((c.1 : ℚ) / 255) ((c.2.1 : ℚ) / 255) ((c.2.2 : ℚ) / 255)
  let v2 := max 0 (min 1 (hsv.2.2 + factor))
  int255 (hsv_to_rgb hsv.1 hsv.2.1 v2)

/-- `np.bincount` on a list of label indices. -/
def bincount (ls : List ℕ) : List ℕ :=
  match ls with
  | [] => []
  | _ => (List.range (ls.foldl max 0 + 1)).map fun i => ls.count i

/-- numpy `astype(int)` applied to one centroid. -/
def truncColor (c : Color3) : RGB := (pytrunc c.1, pytrunc c.2.1, pytrunc c.2.2)

/-- Stable insertion into a count-descending list: an element is placed after
every element with a greater-or-equal count. -/
def orderedInsertDesc (x : Color3 × ℕ) : List (Color3 × ℕ) → List (Color3 × ℕ)
  | [] => [x]
  | y :: ys => if y.2 ≤ x.2 then x :: y :: ys else y :: orderedInsertDesc x ys

/-- Python `list.sort(key=lambda x: x[1], reverse=True)`: the unique stable
sort by descending count. -/
def sortByCountDesc : List (Color3 × ℕ) → List (Color3 × ℕ)
  | [] => []
  | x :: xs => orderedInsertDesc x (sortByCountDesc xs)

/-- Output of the (external) seeded `KMeans.fit` call: `cluster_centers_` and
`labels_`. -/
structure KMeansOut where
  centers : List Color3
  labels : List ℕ
deriving DecidableEq, Repr

/-- The mutable state of a `DesignSystemAdapter` instance.  `kmeansOut n` is
the abstraction of the loaded logo image together with the deterministic
seeded sklearn clustering of its 100×100 resize into `n` clusters. -/
structure Adapter where
  kmeansOut : ℕ → KMeansOut
  dominant_colors : List RGB
  color_palette : Palette

/-- `DesignSystemAdapter.extract_dominant_colors` (lines 23–46): post-processes
the clustering output — per-cluster counts via `np.bincount`, `zip` (which
truncates to the shorter list), stable sort by descending count, truncation of
each centroid to integer RGB — and stores the result on the adapter. -/
def extract_dominant_colors (st : Adapter) (n_colors : ℕ) : Adapter × List RGB :=
  let km := st.kmeansOut n_colors
  let counts := bincount km.labels
  let colors_with_counts := sortByCountDesc (km.centers.zip counts)
  let dominant := colors_with_counts.map fun p => truncColor p.1
  ({ st with dominant_colors := dominant }, dominant)

/-- Body of `DesignSystemAdapter.generate_color_palette` (lines 53–95), after
the empty-dominant fallback: indexing `dominant_colors[0]` on a still-empty
list is an `IndexError`.  The `additional-i` keys are fresh, so the Python
dict inserts append them in insertion order. -/
def generate_from_dominant (st1 : Adapter) : Except PyErr (Adapter × Palette) :=
  match st1.dominant_colors with
  | [] => .error .indexError
  | primary_color :: _ =>
    let hsv := rgb_to_hsv ((primary_color.1 : ℚ) / 255)
        ((primary_color.2.1 : ℚ) / 255) ((primary_color.2.2 : ℚ) / 255)
    let complementary_color := int255 (hsv_to_rgb (pymod1 (hsv.1 + 0.5)) hsv.2.1 hsv.2.2)
    let darker_primary := adjust_brightness primary_color (-0.3)
    let lighter_primary := adjust_brightness primary_color 0.3
    let accent_color := int255 (hsv_to_rgb (pymod1 (hsv.1 + 0.25)) hsv.2.1 hsv.2.2)
    let base : Palette :=
      [("primary", rgb_to_hex primary_color),
       ("primary-dark", rgb_to_hex darker_primary),
       ("primary-light", rgb_to_hex lighter_primary),
       ("secondary", rgb_to_hex complementary_color),
       ("accent", rgb_to_hex accent_color),
       ("gray-light", rgb_to_hex (240, 240, 240)),
       ("gray-medium", rgb_to_hex (150, 150, 150)),
       ("gray-dark", rgb_to_hex (50, 50, 50))]
    let pal :=
      if 1 < st1.dominant_colors.length then
        base ++ ((st1.dominant_colors.drop 1).take 3).enum.map
          (fun ic => ("additional-" ++ toString (ic.1 + 1), rgb_to_hex ic.2))
      else base
    .ok ({ st1 with color_palette := pal }, pal)

/-- `DesignSystemAdapter.generate_color_palette` (lines 48–95).  On an empty
dominant list it first calls `extract_dominant_colors()` (default
`n_colors=5`) before proceeding. -/
def generate_color_palette (st : Adapter) : Except PyErr (Adapter × Palette) :=
  generate_from_dominant
    (if st.dominant_colors.isEmpty then (extract_dominant_colors st 5).1 else st)

/-- Python dict assignment `d[k] = v`: replace the value at an existing key in
place, otherwise append. -/
def dictSet {V : Type} (d : List (String × V)) (k : String) (v : V) : List (String × V) :=
  match d with
  | [] => [(k, v)]
  | (k', v') :: rest => if k' = k then (k', v) :: rest else (k', v') :: dictSet rest k v

/-- Python dict lookup (first match; keys of a real dict are unique). -/
def dictGet? {V : Type} (d : List (String × V)) (k : String) : Option V :=
  match d with
  | [] => none
  | (k', v) :: rest => if k' = k then some v else dictGet? rest k

/-- `self.color_palette[r]`: value or `KeyError`. -/
def requireRole (pal : Palette) (r : String) : Except PyErr String :=
  match dictGet? pal r with
  | some v => .ok v
  | none => .error (.keyError r)

/-- A stored entry of the contrast report (`{"contraste": …, "status": …}`). -/
structure CEntry where
  contraste : ℚ
  status : String
deriving DecidableEq, Repr

/-- `self.analyze_contrast()`'s result dict. -/
abbrev ContrastReport := List (String × CEntry)

/-- Inner `get_luminance` of `analyze_contrast` (lines 162–167): parses the
`#rrggbb` string (Python slices `[1:3]`, `[3:5]`, `[5:7]`) and applies the
WCAG linearization; `** 2.4` is the abstracted `pow24`. -/
def get_luminance (pow24 : ℚ → ℚ) (hex_color : String) : Except PyErr ℚ :=
  let cs := hex_color.data
  exb (int_hex ((cs.drop 1).take 2)) fun rn =>
  exb (int_hex ((cs.drop 3).take 2)) fun gn =>
  exb (int_hex ((cs.drop 5).take 2)) fun bn =>
  let lin := fun (c : ℚ) => if c ≤ 0.03928 then c / 12.92 else pow24 ((c + 0.055) / 1.055)
  .ok (0.2126 * lin ((rn : ℚ) / 255) + 0.7152 * lin ((gn : ℚ) / 255)
       + 0.0722 * lin ((bn : ℚ) / 255))

/-- Inner `calculate_contrast` of `analyze_contrast` (lines 161–175). -/
def calculate_contrast (pow24 : ℚ → ℚ) (c1 c2 : String) : Except PyErr ℚ :=
  exb (get_luminance pow24 c1) fun l1 =>
  exb (get_luminance pow24 c2) fun l2 =>
  if l2 < l1 then .ok ((l1 + 0.05) / (l2 + 0.05)) else .ok ((l2 + 0.05) / (l1 + 0.05))

/-- Lines 189–197: classification on the unrounded contrast, storage of the
two-decimal rounding. -/
def contrastEntryOf (c : ℚ) : CEntry :=
  ⟨round2 c, if 4.5 ≤ c then (if 7 ≤ c then "Bom" else "Aceitável") else "Insuficiente"⟩

/-- Line 186: `[k for k, v in self.color_palette.items() if v == bg_color][0]`
— the first palette key holding the background value; `IndexError` if none. -/
def firstBgKey (pal : Palette) (bg : String) : Except PyErr String :=
  match (pal.filter fun kv => kv.2 == bg).map (fun kv => kv.1) with
  | [] => .error .indexError
  | k :: _ => .ok k

/-- One iteration of the inner loop of `analyze_contrast` (lines 185–197). -/
def contrastStep (pow24 : ℚ → ℚ) (pal : Palette) (tn tc bg : String)
    (rep : ContrastReport) : Except PyErr ContrastReport :=
  exb (firstBgKey pal bg) fun bn =>
  exb (calculate_contrast pow24 tc bg) fun c =>
  .ok (dictSet rep (tn ++ " sobre " ++ bn) (contrastEntryOf c))

/-- Body of `DesignSystemAdapter.analyze_contrast` (lines 160–199), after the
empty-palette regeneration: the two text roles and four background roles are
fixed, so the two nested `for` loops are the eight steps below in Python's
iteration order. -/
def analyze_body (pow24 : ℚ → ℚ) (st1 : Adapter) :
    Except PyErr (Adapter × ContrastReport) :=
  let pal := st1.color_palette
  exb (requireRole pal "gray-light") fun gl =>
  exb (requireRole pal "gray-dark") fun gd =>
  exb (requireRole pal "primary") fun pr =>
  exb (requireRole pal "secondary") fun sc =>
  exb (requireRole pal "primary-light") fun pl =>
  exb (requireRole pal "primary-dark") fun pd =>
  let tn1 := if gl = gl then "texto-claro" else "texto-escuro"
  let tn2 := if gd = gl then "texto-claro" else "texto-escuro"
  exb (contrastStep pow24 pal tn1 gl pr []) fun r1 =>
  exb (contrastStep pow24 pal tn1 gl sc r1) fun r2 =>
  exb (contrastStep pow24 pal tn1 gl pl r2) fun r3 =>
  exb (contrastStep pow24 pal tn1 gl pd r3) fun r4 =>
  exb (contrastStep pow24 pal tn2 gd pr r4) fun r5 =>
  exb (contrastStep pow24 pal tn2 gd sc r5) fun r6 =>
  exb (contrastStep pow24 pal tn2 gd pl r6) fun r7 =>
  exb (contrastStep pow24 pal tn2 gd pd r7) fun r8 =>
  .ok (st1, r8)

/-- `DesignSystemAdapter.analyze_contrast` (lines 155–199): regenerate the
palette when it is empty (the generated return value is discarded, the mutated
state is kept), then analyze. -/
def analyze_contrast (pow24 : ℚ → ℚ) (st : Adapter) :
    Except PyErr (Adapter × ContrastReport) :=
  exb (if st.color_palette.isEmpty then
        match generate_color_palette st with
        | .error e => .error e
        | .ok pr => .ok pr.1
      else .ok st) fun st1 =>
  analyze_body pow24 st1

/-! ### Concrete fixtures used by witnesses and counterexamples -/

/-- Clustering output for a uniformly red logo. -/
def redKm : KMeansOut := ⟨[(255, 0, 0)], [0, 0, 0]⟩

/-- A freshly constructed adapter for a pure red logo: nothing extracted or
generated yet. -/
def redAdapter : Adapter := ⟨fun _ => redKm, [], []⟩

/-- A freshly constructed adapter for a uniformly gray `(128,128,128)` logo. -/
def grayAdapter : Adapter := ⟨fun _ => ⟨[(128, 128, 128)], [0, 0, 0]⟩, [], []⟩

/-- An adapter that already holds the dominant color `(200,100,50)`. -/
def warmAdapter : Adapter := ⟨fun _ => ⟨[], []⟩, [(200, 100, 50)], []⟩

/-- An adapter with a small hand-written palette (all channels at most `0x0a`,
so every channel takes the linear branch of the WCAG formula). -/
def tinyAdapter : Adapter :=
  ⟨fun _ => ⟨[], []⟩, [],
   [("gray-light", "#010101"), ("gray-dark", "#020202"), ("primary", "#000000"),
    ("secondary", "#0a0000"), ("primary-light", "#000a00"), ("primary-dark", "#00000a")]⟩

/-- The palette of the missing-role scenario: `secondary` absent. -/
def noSecondaryAdapter : Adapter :=
  ⟨fun _ => ⟨[], []⟩, [],
   [("gray-light", "#f0f0f0"), ("gray-dark", "#323232"), ("primary", "#ff0000"),
    ("primary-light", "#ff6666"), ("primary-dark", "#660000")]⟩

/-- The HSV decomposition of a primary color, normalized channel-wise to
`[0,1]` — the expression `colorsys.rgb_to_hsv(c[0]/255, c[1]/255, c[2]/255)`
appearing in the generator. -/
def normHsv (p : RGB) : ℚ × ℚ × ℚ :=
  rgb_to_hsv ((p.1 : ℚ) / 255) ((p.2.1 : ℚ) / 255) ((p.2.2 : ℚ) / 255)

/-- The spec's construction of `secondary`, written from its words:
complementary hue `(hue + 0.5) mod 1.0`, same saturation and value as the
primary, converted back to RGB and hex-encoded. -/
def spec_secondary_hex (p : RGB) : String :=
  rgb_to_hex (int255 (hsv_to_rgb (pymod1 ((normHsv p).1 + 0.5)) (normHsv p).2.1 (normHsv p).2.2))

/-- The generator's accent construction (quarter-turn hue). -/
def accent_hex (p : RGB) : String :=
  rgb_to_hex (int255 (hsv_to_rgb (pymod1 ((normHsv p).1 + 0.25)) (normHsv p).2.1 (normHsv p).2.2))

/-- A valid 8-bit RGB triple. -/
def rgbInRange (p : RGB) : Prop :=
  0 ≤ p.1 ∧ p.1 ≤ 255 ∧ 0 ≤ p.2.1 ∧ p.2.1 ≤ 255 ∧ 0 ≤ p.2.2 ∧ p.2.2 ≤ 255

instance (p : RGB) : Decidable (rgbInRange p) := by unfold rgbInRange; infer_instance

/-- The six palette roles the contrast analyzer reads, in the order the code
accesses them. -/
def requiredRoles : List String :=
  ["gray-light", "gray-dark", "primary", "secondary", "primary-light", "primary-dark"]

/-- The spec's classification of a contrast value (applied to the
full-precision ratio): at least 7 → "Bom" (Good), at least 4.5 → "Aceitável"
(Acceptable), otherwise "Insuficiente" (Insufficient). -/
def ratingOfContrast (c : ℚ) : String :=
  if 7 ≤ c then "Bom" else if 4.5 ≤ c then "Aceitável" else "Insuficiente"

/-- The palette the generator computes for the pure-red fixture. -/
def redPalette : Palette :=
  [("primary", "#ff0000"), ("primary-dark", "#b20000"), ("primary-light", "#ff0000"),
   ("secondary", "#00ffff"), ("accent", "#7fff00"), ("gray-light", "#f0f0f0"),
   ("gray-medium", "#969696"), ("gray-dark", "#323232")]

/-- The adapter state after generating the palette for the red fixture. -/
def redGenerated : Adapter :=
  { redAdapter with dominant_colors := [(255, 0, 0)], color_palette := redPalette }

/-- The palette the generator computes for the uniform-gray fixture. -/
def grayPalette : Palette :=
  [("primary", "#808080"), ("primary-dark", "#333333"), ("primary-light", "#cccccc"),
   ("secondary", "#808080"), ("accent", "#808080"), ("gray-light", "#f0f0f0"),
   ("gray-medium", "#969696"), ("gray-dark", "#323232")]

/-- The adapter state after generating the palette for the gray fixture. -/
def grayGenerated : Adapter :=
  { grayAdapter with dominant_colors := [(128, 128, 128)], color_palette := grayPalette }

/-- The palette the generator computes for the `(200,100,50)` fixture. -/
def warmPalette : Palette :=
  [("primary", "#c86432"), ("primary-dark", "#7b3d1e"), ("primary-light", "#ff7f3f"),
   ("secondary", "#3296c8"), ("accent", "#4bc832"), ("gray-light", "#f0f0f0"),
   ("gray-medium", "#969696"), ("gray-dark", "#323232")]

/-- The adapter state after generating the palette for the warm fixture. -/
def warmGenerated : Adapter := { warmAdapter with color_palette := warmPalette }

/-- The report the analyzer computes for the tiny fixture under the identity
power abstraction. -/
def tinyReport : ContrastReport :=
  [("texto-claro sobre primary", ⟨101/100, "Insuficiente"⟩),
   ("texto-claro sobre secondary", ⟨101/100, "Insuficiente"⟩),
   ("texto-claro sobre primary-light", ⟨26/25, "Insuficiente"⟩),
   ("texto-claro sobre primary-dark", ⟨1, "Insuficiente"⟩),
   ("texto-escuro sobre primary", ⟨101/100, "Insuficiente"⟩),
   ("texto-escuro sobre secondary", ⟨1, "Insuficiente"⟩),
   ("texto-escuro sobre primary-light", ⟨103/100, "Insuficiente"⟩),
   ("texto-escuro sobre primary-dark", ⟨101/100, "Insuficiente"⟩)]

instance {e a : Type} [DecidableEq e] [DecidableEq a] : DecidableEq (Except e a) := fun x y =>
  match x, y with
  | .error u, .error v => if h : u = v then isTrue (by rw [h]) else isFalse (by simp [h])
  | .ok u, .ok v => if h : u = v then isTrue (by rw [h]) else isFalse (by simp [h])
  | .error _, .ok _ => isFalse (by simp)
  | .ok _, .error _ => isFalse (by simp)

/-! ### Basic lemmas about the embedding -/

theorem ratFloor_eq_floor (q : ℚ) : ratFloor q = Int.floor q :=
  Rat.floor_def.symm

theorem exb_ok {α β : Type} {x : Except PyErr α} {f : α → Except PyErr β} {b : β} :
    exb x f = .ok b ↔ ∃ a, x = .ok a ∧ f a = .ok b := by
  cases x <;> simp [exb]

theorem requireRole_ok {pal : Palette} {r v : String} :
    requireRole pal r = .ok v ↔ dictGet? pal r = some v := by
  unfold requireRole
  cases dictGet? pal r <;> simp

theorem extract_state (st : Adapter) (n : ℕ) :
    (extract_dominant_colors st n).1 =
      { st with dominant_colors := (extract_dominant_colors st n).2 } := rfl

/-! ### C9 — side effects of extraction -/

/-- C9 (amended): extraction's one side effect is overwriting the adapter's
`dominant_colors` field with its return value; the palette and the clustering
input are untouched, and the returned list is a function of the clustering
input alone. -/
theorem c9_extract_only_mutates_dominant (st : Adapter) (n : ℕ) :
    (extract_dominant_colors st n).1 =
        { st with dominant_colors := (extract_dominant_colors st n).2 } ∧
    (extract_dominant_colors st n).1.color_palette = st.color_palette ∧
    (extract_dominant_colors st n).1.kmeansOut = st.kmeansOut ∧
    ∀ st2 : Adapter, st2.kmeansOut = st.kmeansOut →
      (extract_dominant_colors st2 n).2 = (extract_dominant_colors st n).2 := by
  refine ⟨rfl, rfl, rfl, ?_⟩
  intro st2 h
  simp only [extract_dominant_colors, h]

/-- C9 counterexample: on a fresh adapter for a red logo, calling extraction
changes the adapter's state (`dominant_colors` is written), so extraction is
not free of side effects. -/
theorem c9_counterexample :
    (extract_dominant_colors redAdapter 5).1.dominant_colors ≠
      redAdapter.dominant_colors := by decide

/-- C9 witness: the amended theorem applied at the red fixture. -/
theorem c9_witness :
    (extract_dominant_colors grayAdapter 5).1.color_palette = grayAdapter.color_palette ∧
    redAdapter.kmeansOut = redAdapter.kmeansOut ∧
    (extract_dominant_colors redAdapter 5).2 = (extract_dominant_colors redAdapter 5).2 :=
  ⟨(c9_extract_only_mutates_dominant grayAdapter 5).2.1, rfl,
   (c9_extract_only_mutates_dominant redAdapter 5).2.2.2 redAdapter rfl⟩

/-! ### C1 — behavior of palette generation on an empty dominant list -/

/-- C1 (amended): on an empty dominant list, palette generation does not fail
with an empty-dominant-list error; it falls back to running
`extract_dominant_colors` (default 5 clusters) and proceeds with the extracted
list, failing (with `IndexError` from `dominant_colors[0]`) only if extraction
itself produced an empty list. -/
theorem c1_empty_dominant_falls_back (st : Adapter) (h : st.dominant_colors = []) :
    ((extract_dominant_colors st 5).2 ≠ [] →
      ∃ st' pal, generate_color_palette st = .ok (st', pal) ∧
        st'.dominant_colors = (extract_dominant_colors st 5).2) ∧
    ((extract_dominant_colors st 5).2 = [] →
      generate_color_palette st = .error .indexError) := by
  have hemp : st.dominant_colors.isEmpty = true := by simp [h]
  have hdom1 : (extract_dominant_colors st 5).1.dominant_colors =
      (extract_dominant_colors st 5).2 := rfl
  unfold generate_color_palette
  rw [if_pos hemp]
  constructor
  · intro hne
    cases hd : (extract_dominant_colors st 5).2 with
    | nil => exact absurd hd hne
    | cons p rest =>
      rw [generate_from_dominant, hdom1, hd]
      exact ⟨_, _, rfl, rfl⟩
  · intro hnil
    rw [generate_from_dominant, hdom1, hnil]

/-- C1 counterexample: a fresh adapter (empty dominant list) for a red logo —
generation succeeds and has itself computed the dominant colors, rather than
failing with an `EmptyDominantListError`. -/
theorem c1_counterexample :
    redAdapter.dominant_colors = [] ∧
    (generate_color_palette redAdapter).toOption.map (fun pr => pr.1.dominant_colors) =
      some [(255, 0, 0)] := ⟨rfl, rfl⟩

/-- C1 witness: the amended theorem applied at the red fixture. -/
theorem c1_witness :
    redAdapter.dominant_colors = [] ∧
    ∃ st' pal, generate_color_palette redAdapter = .ok (st', pal) ∧
      st'.dominant_colors = (extract_dominant_colors redAdapter 5).2 :=
  ⟨rfl, (c1_empty_dominant_falls_back redAdapter rfl).1 (by decide)⟩

/-! ### C7 — ordering and stability of the extraction sort -/

theorem mem_orderedInsertDesc {x z : Color3 × ℕ} {l : List (Color3 × ℕ)}
    (h : z ∈ orderedInsertDesc x l) : z = x ∨ z ∈ l := by
  induction l with
  | nil => simpa [orderedInsertDesc] using h
  | cons y ys ih =>
    by_cases hc : y.2 ≤ x.2
    · simp only [orderedInsertDesc, if_pos hc] at h
      exact List.mem_cons.mp h
    · simp only [orderedInsertDesc, if_neg hc] at h
      rcases List.mem_cons.mp h with rfl | h2
      · exact Or.inr (List.mem_cons_self _ _)
      · rcases ih h2 with h3 | h3
        · exact Or.inl h3
        · exact Or.inr (List.mem_cons_of_mem _ h3)

theorem pairwise_orderedInsertDesc {x : Color3 × ℕ} {l : List (Color3 × ℕ)}
    (h : List.Pairwise (fun a b => b.2 ≤ a.2) l) :
    List.Pairwise (fun a b => b.2 ≤ a.2) (orderedInsertDesc x l) := by
  induction l with
  | nil => simp [orderedInsertDesc]
  | cons y ys ih =>
    rcases List.pairwise_cons.mp h with ⟨hy, hys⟩
    by_cases hc : y.2 ≤ x.2
    · simp only [orderedInsertDesc, if_pos hc]
      refine List.Pairwise.cons ?_ h
      intro z hz
      rcases List.mem_cons.mp hz with rfl | hzys
      · exact hc
      · exact le_trans (hy z hzys) hc
    · simp only [orderedInsertDesc, if_neg hc]
      refine List.Pairwise.cons ?_ (ih hys)
      intro z hz
      rcases mem_orderedInsertDesc hz with rfl | hzys
      · exact le_of_not_le hc
      · exact hy z hzys

theorem sortByCountDesc_pairwise (l : List (Color3 × ℕ)) :
    List.Pairwise (fun a b => b.2 ≤ a.2) (sortByCountDesc l) := by
  induction l with
  | nil => simp [sortByCountDesc]
  | cons x xs ih => exact pairwise_orderedInsertDesc ih

theorem filter_orderedInsertDesc (x : Color3 × ℕ) (l : List (Color3 × ℕ)) (c : ℕ) :
    (orderedInsertDesc x l).filter (fun p => p.2 == c) =
      if x.2 = c then x :: l.filter (fun p => p.2 == c)
      else l.filter (fun p => p.2 == c) := by
  induction l with
  | nil => by_cases hx : x.2 = c <;> simp [orderedInsertDesc, hx]
  | cons y ys ih =>
    by_cases hc : y.2 ≤ x.2
    · simp only [orderedInsertDesc]
      rw [if_pos hc]
      by_cases hx : x.2 = c <;> by_cases hy : y.2 = c <;>
        simp [List.filter_cons, hx, hy]
    · simp only [orderedInsertDesc]
      rw [if_neg hc]
      have hlt : x.2 < y.2 := lt_of_not_le hc
      by_cases hx : x.2 = c
      · have hy : ¬ (y.2 = c) := by omega
        simp [List.filter_cons, hx, hy, ih]
      · by_cases hy : y.2 = c <;> simp [List.filter_cons, hx, hy, ih]

theorem filter_sortByCountDesc (l : List (Color3 × ℕ)) (c : ℕ) :
    (sortByCountDesc l).filter (fun p => p.2 == c) = l.filter (fun p => p.2 == c) := by
  induction l with
  | nil => rfl
  | cons x xs ih =>
    by_cases hx : x.2 = c <;>
      simp [sortByCountDesc, filter_orderedInsertDesc, hx, ih]

/-- C7: the pair list built by `extract_dominant_colors` is sorted by
non-increasing occurrence count, keeps centroids with equal counts in their
original relative order (the filter at each count value is unchanged), and
the returned dominant colors are exactly the sorted centroids truncated to
integers. -/
theorem c7_extraction_sorted_stable (st : Adapter) (n : ℕ) :
    List.Pairwise (fun a b => b.2 ≤ a.2)
      (sortByCountDesc ((st.kmeansOut n).centers.zip (bincount (st.kmeansOut n).labels))) ∧
    (∀ c : ℕ,
      (sortByCountDesc
          ((st.kmeansOut n).centers.zip (bincount (st.kmeansOut n).labels))).filter
          (fun p => p.2 == c) =
        ((st.kmeansOut n).centers.zip (bincount (st.kmeansOut n).labels)).filter
          (fun p => p.2 == c)) ∧
    (extract_dominant_colors st n).2 =
      (sortByCountDesc ((st.kmeansOut n).centers.zip (bincount (st.kmeansOut n).labels))).map
        (fun p => truncColor p.1) :=
  ⟨sortByCountDesc_pairwise _, fun c => filter_sortByCountDesc _ c, rfl⟩

/-! ### The shape of a generated palette -/

theorem grayLightHexVal : rgb_to_hex (240, 240, 240) = "#f0f0f0" := rfl

theorem grayMediumHexVal : rgb_to_hex (150, 150, 150) = "#969696" := rfl

theorem grayDarkHexVal : rgb_to_hex (50, 50, 50) = "#323232" := rfl

theorem adjust_brightness_eq (p : RGB) (f : ℚ) :
    adjust_brightness p f =
      int255 (hsv_to_rgb (normHsv p).1 (normHsv p).2.1
        (max 0 (min 1 ((normHsv p).2.2 + f)))) := rfl

/-- Any successful palette generation yields the eight fixed roles in
insertion order, derived from the head dominant color, followed only by the
`additional-i` entries. -/
theorem generate_from_dominant_shape {st1 st' : Adapter} {pal : Palette}
    (h : generate_from_dominant st1 = .ok (st', pal)) :
    ∃ p rest tail,
      st1.dominant_colors = p :: rest ∧
      st' = { st1 with color_palette := pal } ∧
      pal = [("primary", rgb_to_hex p),
             ("primary-dark", rgb_to_hex (adjust_brightness p (-0.3))),
             ("primary-light", rgb_to_hex (adjust_brightness p 0.3)),
             ("secondary", spec_secondary_hex p),
             ("accent", accent_hex p),
             ("gray-light", "#f0f0f0"),
             ("gray-medium", "#969696"),
             ("gray-dark", "#323232")] ++ tail := by
  rw [generate_from_dominant.eq_def] at h
  split at h
  · exact absurd h (by simp)
  · rename_i p rest hdom
    rw [Except.ok.injEq, Prod.mk.injEq] at h
    obtain ⟨hst, hpal⟩ := h
    subst hst
    subst hpal
    by_cases hlen : 1 < st1.dominant_colors.length
    · rw [if_pos hlen]
      exact ⟨p, rest, _, hdom, rfl, rfl⟩
    · rw [if_neg hlen]
      exact ⟨p, rest, [], hdom, rfl, rfl⟩

/-! ### C5 — the complementary secondary color -/

/-- C5: every generated palette's `secondary` entry is the hex encoding of
`hsv_to_rgb` applied to `(hue(primary) + 0.5) mod 1.0` with the saturation and
value of the primary (the spec-side construction `spec_secondary_hex`). -/
theorem c5_secondary_complementary (st st' : Adapter) (pal : Palette)
    (h : generate_color_palette st = .ok (st', pal)) :
    ∃ p rest, st'.dominant_colors = p :: rest ∧
      dictGet? pal "secondary" = some (spec_secondary_hex p) := by
  unfold generate_color_palette at h
  obtain ⟨p, rest, tail, hdom, hst, hpal⟩ := generate_from_dominant_shape h
  refine ⟨p, rest, ?_, ?_⟩
  · rw [hst]; exact hdom
  · rw [hpal]; simp [dictGet?]

/-- C5 witness: the pure-red scenario — `primary = "#ff0000"`,
`secondary = "#00ffff"`, and the secondary entry is the spec construction. -/
theorem c5_witness :
    generate_color_palette redAdapter = .ok (redGenerated, redPalette) ∧
    (∃ p rest, redGenerated.dominant_colors = p :: rest ∧
      dictGet? redPalette "secondary" = some (spec_secondary_hex p)) ∧
    dictGet? redPalette "primary" = some "#ff0000" ∧
    dictGet? redPalette "secondary" = some "#00ffff" ∧
    spec_secondary_hex (255, 0, 0) = "#00ffff" := by
  have hgen : generate_color_palette redAdapter = .ok (redGenerated, redPalette) := by
    with_unfolding_all rfl
  exact ⟨hgen, c5_secondary_complementary redAdapter redGenerated redPalette hgen,
    by with_unfolding_all rfl, by with_unfolding_all rfl, by with_unfolding_all rfl⟩

/-! ### C8 — grayscale/black primaries use hue 0 -/

/-- On nonnegative channels, zero saturation or zero value forces the
grayscale branch of `colorsys.rgb_to_hsv`, which returns hue 0 (and
saturation 0). -/
theorem hue_zero {r g b : ℚ} (hr0 : 0 ≤ r) (hg0 : 0 ≤ g) (hb0 : 0 ≤ b)
    (h : (rgb_to_hsv r g b).2.1 = 0 ∨ (rgb_to_hsv r g b).2.2 = 0) :
    rgb_to_hsv r g b = (0, 0, max r (max g b)) := by
  by_cases hmm : min r (min g b) = max r (max g b)
  · unfold rgb_to_hsv
    rw [if_pos hmm]
  · exfalso
    have hminc0 : 0 ≤ min r (min g b) := le_min hr0 (le_min hg0 hb0)
    have hle : min r (min g b) ≤ max r (max g b) :=
      le_trans (min_le_left _ _) (le_max_left _ _)
    have hlt : min r (min g b) < max r (max g b) := lt_of_le_of_ne hle hmm
    have hmax0 : 0 < max r (max g b) := lt_of_le_of_lt hminc0 hlt
    unfold rgb_to_hsv at h
    rw [if_neg hmm] at h
    simp only [] at h
    rcases h with hs | hv
    · rw [div_eq_zero_iff] at hs
      rcases hs with hs | hs
      · exact hmm (sub_eq_zero.mp hs).symm
      · exact ne_of_gt hmax0 hs
    · exact ne_of_gt hmax0 hv

/-- C8: when the primary color has zero saturation or zero value (grayscale or
black), the generator derives `secondary`, `accent`, `primary-dark` and
`primary-light` from hue 0 — the hue produced by `rgb_to_hsv` in that case —
rather than from an undefined hue. -/
theorem c8_grayscale_hue_fallback (st st' : Adapter) (pal : Palette) (p : RGB)
    (rest : List RGB) (h : generate_color_palette st = .ok (st', pal))
    (hdom : st'.dominant_colors = p :: rest) (hrange : rgbInRange p)
    (hgray : (normHsv p).2.1 = 0 ∨ (normHsv p).2.2 = 0) :
    (normHsv p).1 = 0 ∧
    dictGet? pal "secondary" =
      some (rgb_to_hex (int255 (hsv_to_rgb (pymod1 ((0 : ℚ) + 0.5))
        (normHsv p).2.1 (normHsv p).2.2))) ∧
    dictGet? pal "accent" =
      some (rgb_to_hex (int255 (hsv_to_rgb (pymod1 ((0 : ℚ) + 0.25))
        (normHsv p).2.1 (normHsv p).2.2))) ∧
    dictGet? pal "primary-dark" =
      some (rgb_to_hex (int255 (hsv_to_rgb 0 (normHsv p).2.1
        (max 0 (min 1 ((normHsv p).2.2 + (-0.3))))))) ∧
    dictGet? pal "primary-light" =
      some (rgb_to_hex (int255 (hsv_to_rgb 0 (normHsv p).2.1
        (max 0 (min 1 ((normHsv p).2.2 + 0.3)))))) := by
  obtain ⟨hr0, hr1, hg0, hg1, hb0, hb1⟩ := hrange
  have hch : ∀ x : ℤ, 0 ≤ x → (0 : ℚ) ≤ (x : ℚ) / 255 := fun x hx =>
    div_nonneg (by exact_mod_cast hx) (by norm_num)
  have hzero : normHsv p = (0, 0, max ((p.1 : ℚ) / 255) (max ((p.2.1 : ℚ) / 255) ((p.2.2 : ℚ) / 255))) :=
    hue_zero (hch _ hr0) (hch _ hg0) (hch _ hb0) hgray
  have hh : (normHsv p).1 = 0 := by rw [hzero]
  unfold generate_color_palette at h
  obtain ⟨p2, rest2, tail, hdom2, hst, hpal⟩ := generate_from_dominant_shape h
  have hproj : st'.dominant_colors = p2 :: rest2 := by rw [hst]; exact hdom2
  rw [hproj] at hdom
  injection hdom with e1 e2
  subst e1
  refine ⟨hh, ?_, ?_, ?_, ?_⟩ <;> rw [hpal] <;>
    simp [dictGet?, spec_secondary_hex, accent_hex, adjust_brightness_eq, hh]

/-- C8 witness: the theorem applied to the uniform-gray fixture. -/
theorem c8_witness :
    (normHsv (128, 128, 128)).1 = 0 ∧
    dictGet? grayPalette "secondary" =
      some (rgb_to_hex (int255 (hsv_to_rgb (pymod1 ((0 : ℚ) + 0.5))
        (normHsv (128, 128, 128)).2.1 (normHsv (128, 128, 128)).2.2))) := by
  have hgen : generate_color_palette grayAdapter = .ok (grayGenerated, grayPalette) := by
    with_unfolding_all rfl
  have hcon := c8_grayscale_hue_fallback grayAdapter grayGenerated grayPalette
    (128, 128, 128) [] hgen rfl (by decide) (Or.inl (by with_unfolding_all rfl))
  exact ⟨hcon.1, hcon.2.1⟩

/-! ### C3 — missing required roles -/

/-- C3 (amended): for every non-empty palette missing at least one required
role, contrast analysis fails with a `KeyError` naming a missing required role
(an empty palette instead triggers regeneration — see C10). -/
theorem c3_missing_role_fails (pow24 : ℚ → ℚ) (st : Adapter) (r : String)
    (hne : st.color_palette ≠ []) (hr : r ∈ requiredRoles)
    (hmiss : dictGet? st.color_palette r = none) :
    ∃ r2, r2 ∈ requiredRoles ∧ dictGet? st.color_palette r2 = none ∧
      analyze_contrast pow24 st = .error (.keyError r2) := by
  have hemp : st.color_palette.isEmpty = false := by
    cases hpal : st.color_palette with
    | nil => exact absurd hpal hne
    | cons a l => rfl
  have hred : analyze_contrast pow24 st = analyze_body pow24 st := by
    unfold analyze_contrast
    rw [if_neg (by simp [hemp])]
    rfl
  rw [hred]
  cases h1 : dictGet? st.color_palette "gray-light" with
  | none =>
    exact ⟨"gray-light", by simp [requiredRoles], h1,
      by simp [analyze_body, requireRole, h1, exb]⟩
  | some gl =>
  cases h2 : dictGet? st.color_palette "gray-dark" with
  | none =>
    exact ⟨"gray-dark", by simp [requiredRoles], h2,
      by simp [analyze_body, requireRole, h1, h2, exb]⟩
  | some gd =>
  cases h3 : dictGet? st.color_palette "primary" with
  | none =>
    exact ⟨"primary", by simp [requiredRoles], h3,
      by simp [analyze_body, requireRole, h1, h2, h3, exb]⟩
  | some pr =>
  cases h4 : dictGet? st.color_palette "secondary" with
  | none =>
    exact ⟨"secondary", by simp [requiredRoles], h4,
      by simp [analyze_body, requireRole, h1, h2, h3, h4, exb]⟩
  | some sc =>
  cases h5 : dictGet? st.color_palette "primary-light" with
  | none =>
    exact ⟨"primary-light", by simp [requiredRoles], h5,
      by simp [analyze_body, requireRole, h1, h2, h3, h4, h5, exb]⟩
  | some pl =>
  cases h6 : dictGet? st.color_palette "primary-dark" with
  | none =>
    exact ⟨"primary-dark", by simp [requiredRoles], h6,
      by simp [analyze_body, requireRole, h1, h2, h3, h4, h5, h6, exb]⟩
  | some pd =>
    exfalso
    simp only [requiredRoles, List.mem_cons, List.not_mem_nil, or_false] at hr
    rcases hr with rfl | rfl | rfl | rfl | rfl | rfl <;> simp_all

/-- C3 counterexample: an adapter whose palette is empty — hence missing every
required role — does not fail: the analyzer regenerates the palette and
returns a report. -/
theorem c3_counterexample :
    grayAdapter.color_palette = [] ∧
    dictGet? grayAdapter.color_palette "secondary" = none ∧
    Except.map (fun x => x.2.length) (analyze_contrast (fun q => q) grayAdapter) = .ok 6 :=
  ⟨rfl, rfl, by with_unfolding_all rfl⟩

/-- C3 witness: the amended theorem applied to the missing-`secondary`
scenario palette. -/
theorem c3_witness :
    noSecondaryAdapter.color_palette ≠ [] ∧
    ∃ r2, r2 ∈ requiredRoles ∧ dictGet? noSecondaryAdapter.color_palette r2 = none ∧
      analyze_contrast (fun q => q) noSecondaryAdapter = .error (.keyError r2) :=
  ⟨by simp [noSecondaryAdapter],
   c3_missing_role_fails (fun q => q) noSecondaryAdapter "secondary"
     (by simp [noSecondaryAdapter]) (by simp [requiredRoles]) (by decide)⟩

/-! ### C6 — classification on the full-precision ratio, reporting rounded -/

theorem contrastEntryOf_status (c : ℚ) :
    (contrastEntryOf c).status = ratingOfContrast c := by
  simp only [contrastEntryOf, ratingOfContrast]
  split_ifs with h1 h2 h2 <;> first | rfl | linarith

theorem contrastEntryOf_contraste (c : ℚ) :
    (contrastEntryOf c).contraste = round2 c := rfl

theorem mem_dictSet {V : Type} {d : List (String × V)} {k : String} {v : V}
    {x : String × V} (h : x ∈ dictSet d k v) : x ∈ d ∨ x.2 = v := by
  induction d with
  | nil =>
    simp only [dictSet, List.mem_singleton] at h
    exact Or.inr (by rw [h])
  | cons a rest ih =>
    obtain ⟨k1, v1⟩ := a
    by_cases hk : k1 = k
    · simp only [dictSet, if_pos hk, List.mem_cons] at h
      rcases h with rfl | h
      · exact Or.inr rfl
      · exact Or.inl (List.mem_cons_of_mem _ h)
    · simp only [dictSet, if_neg hk, List.mem_cons] at h
      rcases h with rfl | h
      · exact Or.inl (List.mem_cons_self _ _)
      · rcases ih h with h2 | h2
        · exact Or.inl (List.mem_cons_of_mem _ h2)
        · exact Or.inr h2

theorem contrastStep_ok_mem {pow24 : ℚ → ℚ} {pal : Palette} {tn tc bg : String}
    {rep rep2 : ContrastReport} (h : contrastStep pow24 pal tn tc bg rep = .ok rep2) :
    ∀ x : String × CEntry, x ∈ rep2 → x ∈ rep ∨
      ∃ c, calculate_contrast pow24 tc bg = .ok c ∧ x.2 = contrastEntryOf c := by
  unfold contrastStep at h
  rw [exb_ok] at h
  obtain ⟨bn, hbn, h⟩ := h
  rw [exb_ok] at h
  obtain ⟨c, hc, h⟩ := h
  injection h with h
  subst h
  intro x hx
  rcases mem_dictSet hx with hx | hx
  · exact Or.inl hx
  · exact Or.inr ⟨c, hc, hx⟩

theorem entry_fields {e : CEntry} {c : ℚ} (he : e = contrastEntryOf c) :
    e.contraste = round2 c ∧ e.status = ratingOfContrast c := by
  subst he
  exact ⟨rfl, contrastEntryOf_status c⟩

/-- C6: every entry of a successful contrast report is built from one
full-precision ratio `c` of a designated text/background pair: the stored
status is the classification of `c` itself (not of the rounded value), and
the stored ratio is `c` rounded to two decimal places. -/
theorem c6_rating_full_precision (pow24 : ℚ → ℚ) (st st2 : Adapter)
    (rep : ContrastReport) (h : analyze_contrast pow24 st = .ok (st2, rep))
    (k : String) (e : CEntry) (hmem : (k, e) ∈ rep) :
    ∃ t b c,
      (dictGet? st2.color_palette "gray-light" = some t ∨
       dictGet? st2.color_palette "gray-dark" = some t) ∧
      (dictGet? st2.color_palette "primary" = some b ∨
       dictGet? st2.color_palette "secondary" = some b ∨
       dictGet? st2.color_palette "primary-light" = some b ∨
       dictGet? st2.color_palette "primary-dark" = some b) ∧
      calculate_contrast pow24 t b = .ok c ∧
      e.contraste = round2 c ∧ e.status = ratingOfContrast c := by
  unfold analyze_contrast at h
  rw [exb_ok] at h
  obtain ⟨st1, hst1, h⟩ := h
  simp only [analyze_body] at h
  rw [exb_ok] at h; obtain ⟨gl, hgl, h⟩ := h
  rw [exb_ok] at h; obtain ⟨gd, hgd, h⟩ := h
  rw [exb_ok] at h; obtain ⟨pr, hpr, h⟩ := h
  rw [exb_ok] at h; obtain ⟨sc, hsc, h⟩ := h
  rw [exb_ok] at h; obtain ⟨pl, hpl, h⟩ := h
  rw [exb_ok] at h; obtain ⟨pd, hpd, h⟩ := h
  rw [exb_ok] at h; obtain ⟨r1, hr1, h⟩ := h
  rw [exb_ok] at h; obtain ⟨r2, hr2, h⟩ := h
  rw [exb_ok] at h; obtain ⟨r3, hr3, h⟩ := h
  rw [exb_ok] at h; obtain ⟨r4, hr4, h⟩ := h
  rw [exb_ok] at h; obtain ⟨r5, hr5, h⟩ := h
  rw [exb_ok] at h; obtain ⟨r6, hr6, h⟩ := h
  rw [exb_ok] at h; obtain ⟨r7, hr7, h⟩ := h
  rw [exb_ok] at h; obtain ⟨r8, hr8, h⟩ := h
  rw [Except.ok.injEq, Prod.mk.injEq] at h
  obtain ⟨hA, hB⟩ := h
  subst hA
  subst hB
  rw [requireRole_ok] at hgl hgd hpr hsc hpl hpd
  rcases contrastStep_ok_mem hr8 _ hmem with hm | ⟨c, hc, he⟩
  · rcases contrastStep_ok_mem hr7 _ hm with hm | ⟨c, hc, he⟩
    · rcases contrastStep_ok_mem hr6 _ hm with hm | ⟨c, hc, he⟩
      · rcases contrastStep_ok_mem hr5 _ hm with hm | ⟨c, hc, he⟩
        · rcases contrastStep_ok_mem hr4 _ hm with hm | ⟨c, hc, he⟩
          · rcases contrastStep_ok_mem hr3 _ hm with hm | ⟨c, hc, he⟩
            · rcases contrastStep_ok_mem hr2 _ hm with hm | ⟨c, hc, he⟩
              · rcases contrastStep_ok_mem hr1 _ hm with hm | ⟨c, hc, he⟩
                · exact absurd hm (List.not_mem_nil _)
                · exact ⟨gl, pr, c, Or.inl hgl, Or.inl hpr, hc,
                    (entry_fields he).1, (entry_fields he).2⟩
              · exact ⟨gl, sc, c, Or.inl hgl, Or.inr (Or.inl hsc), hc,
                  (entry_fields he).1, (entry_fields he).2⟩
            · exact ⟨gl, pl, c, Or.inl hgl, Or.inr (Or.inr (Or.inl hpl)), hc,
                (entry_fields he).1, (entry_fields he).2⟩
          · exact ⟨gl, pd, c, Or.inl hgl, Or.inr (Or.inr (Or.inr hpd)), hc,
              (entry_fields he).1, (entry_fields he).2⟩
        · exact ⟨gd, pr, c, Or.inr hgd, Or.inl hpr, hc,
            (entry_fields he).1, (entry_fields he).2⟩
      · exact ⟨gd, sc, c, Or.inr hgd, Or.inr (Or.inl hsc), hc,
          (entry_fields he).1, (entry_fields he).2⟩
    · exact ⟨gd, pl, c, Or.inr hgd, Or.inr (Or.inr (Or.inl hpl)), hc,
        (entry_fields he).1, (entry_fields he).2⟩
  · exact ⟨gd, pd, c, Or.inr hgd, Or.inr (Or.inr (Or.inr hpd)), hc,
      (entry_fields he).1, (entry_fields he).2⟩

/-- C6 witness: the theorem applied to the first entry of the tiny fixture's
report. -/
theorem c6_witness :
    analyze_contrast (fun q => q) tinyAdapter = .ok (tinyAdapter, tinyReport) ∧
    ∃ t b c,
      (dictGet? tinyAdapter.color_palette "gray-light" = some t ∨
       dictGet? tinyAdapter.color_palette "gray-dark" = some t) ∧
      (dictGet? tinyAdapter.color_palette "primary" = some b ∨
       dictGet? tinyAdapter.color_palette "secondary" = some b ∨
       dictGet? tinyAdapter.color_palette "primary-light" = some b ∨
       dictGet? tinyAdapter.color_palette "primary-dark" = some b) ∧
      calculate_contrast (fun q => q) t b = .ok c ∧
      (⟨101/100, "Insuficiente"⟩ : CEntry).contraste = round2 c ∧
      (⟨101/100, "Insuficiente"⟩ : CEntry).status = ratingOfContrast c := by
  have hgen : analyze_contrast (fun q => q) tinyAdapter = .ok (tinyAdapter, tinyReport) := by
    with_unfolding_all rfl
  refine ⟨hgen, ?_⟩
  exact c6_rating_full_precision (fun q => q) tinyAdapter tinyAdapter tinyReport hgen
    "texto-claro sobre primary" ⟨101/100, "Insuficiente"⟩ (List.mem_cons_self _ _)

/-! ### C2 — the report covers the 2 × 4 cross product -/

theorem lum_grayLight_ok (pow24 : ℚ → ℚ) : ∃ L, get_luminance pow24 "#f0f0f0" = .ok L :=
  ⟨_, by with_unfolding_all rfl⟩

theorem lum_grayDark_ok (pow24 : ℚ → ℚ) : ∃ L, get_luminance pow24 "#323232" = .ok L :=
  ⟨_, by with_unfolding_all rfl⟩

theorem calculate_contrast_ok {pow24 : ℚ → ℚ} {t b : String}
    (ht : ∃ L, get_luminance pow24 t = .ok L) (hb : ∃ L, get_luminance pow24 b = .ok L) :
    ∃ c, calculate_contrast pow24 t b = .ok c := by
  obtain ⟨l1, h1⟩ := ht
  obtain ⟨l2, h2⟩ := hb
  unfold calculate_contrast
  rw [h1, h2]
  simp only [exb]
  by_cases hlt : l2 < l1
  · rw [if_pos hlt]
    exact ⟨_, rfl⟩
  · rw [if_neg hlt]
    exact ⟨_, rfl⟩

theorem contrastStep_eq {pow24 : ℚ → ℚ} {pal : Palette} {tn tc bg bn : String}
    {c : ℚ} {rep : ContrastReport} (hf : firstBgKey pal bg = .ok bn)
    (hc : calculate_contrast pow24 tc bg = .ok c) :
    contrastStep pow24 pal tn tc bg rep =
      .ok (dictSet rep (tn ++ " sobre " ++ bn) (contrastEntryOf c)) := by
  unfold contrastStep
  rw [hf, hc]
  rfl

/-- C2 (amended): the contrast report of a generated palette has exactly one
entry per (text role, background role) composite label; it has exactly 8
entries whenever the four background role values (`primary`, `secondary`,
`primary-light`, `primary-dark`) are pairwise distinct hex strings (colliding
values merge their entries under the first matching role's label). -/
theorem c2_report_eight (pow24 : ℚ → ℚ) (st st2 : Adapter) (pal : Palette)
    (h : generate_color_palette st = .ok (st2, pal))
    (hp hd hl hs : String)
    (ep : dictGet? pal "primary" = some hp)
    (ed : dictGet? pal "primary-dark" = some hd)
    (el : dictGet? pal "primary-light" = some hl)
    (es : dictGet? pal "secondary" = some hs)
    (dpd : hp ≠ hd) (dpl : hp ≠ hl) (dps : hp ≠ hs)
    (ddl : hd ≠ hl) (dds : hd ≠ hs) (dls : hl ≠ hs)
    (okp : ∃ L, get_luminance pow24 hp = .ok L)
    (okd : ∃ L, get_luminance pow24 hd = .ok L)
    (okl : ∃ L, get_luminance pow24 hl = .ok L)
    (oks : ∃ L, get_luminance pow24 hs = .ok L) :
    ∃ rep, analyze_contrast pow24 st2 = .ok (st2, rep) ∧ rep.length = 8 := by
  unfold generate_color_palette at h
  obtain ⟨p, rest, tail, hdom, hst, hpal⟩ := generate_from_dominant_shape h
  rw [hpal] at ep ed el es
  simp only [dictGet?, List.cons_append, String.reduceEq, if_true, if_false,
    reduceIte, Option.some.injEq] at ep ed el es
  rw [ep, ed, el, es] at hpal
  have hpal2 : st2.color_palette = pal := by rw [hst]
  have hemp : st2.color_palette.isEmpty = false := by
    rw [hpal2, hpal]
    rfl
  have hred : analyze_contrast pow24 st2 = analyze_body pow24 st2 := by
    unfold analyze_contrast
    rw [if_neg (by simp [hemp])]
    rfl
  have f1 : requireRole pal "gray-light" = .ok "#f0f0f0" := by
    rw [hpal]; simp [requireRole, dictGet?]
  have f2 : requireRole pal "gray-dark" = .ok "#323232" := by
    rw [hpal]; simp [requireRole, dictGet?]
  have f3 : requireRole pal "primary" = .ok hp := by
    rw [hpal]; simp [requireRole, dictGet?]
  have f4 : requireRole pal "secondary" = .ok hs := by
    rw [hpal]; simp [requireRole, dictGet?]
  have f5 : requireRole pal "primary-light" = .ok hl := by
    rw [hpal]; simp [requireRole, dictGet?]
  have f6 : requireRole pal "primary-dark" = .ok hd := by
    rw [hpal]; simp [requireRole, dictGet?]
  have fb1 : firstBgKey pal hp = .ok "primary" := by
    rw [hpal]; simp [firstBgKey, List.filter_cons]
  have fb2 : firstBgKey pal hs = .ok "secondary" := by
    rw [hpal]; simp [firstBgKey, List.filter_cons, beq_iff_eq, dps, dds, dls]
  have fb3 : firstBgKey pal hl = .ok "primary-light" := by
    rw [hpal]; simp [firstBgKey, List.filter_cons, beq_iff_eq, dpl, ddl]
  have fb4 : firstBgKey pal hd = .ok "primary-dark" := by
    rw [hpal]; simp [firstBgKey, List.filter_cons, beq_iff_eq, dpd]
  obtain ⟨c1, hc1⟩ := calculate_contrast_ok (lum_grayLight_ok pow24) okp
  obtain ⟨c2, hc2⟩ := calculate_contrast_ok (lum_grayLight_ok pow24) oks
  obtain ⟨c3, hc3⟩ := calculate_contrast_ok (lum_grayLight_ok pow24) okl
  obtain ⟨c4, hc4⟩ := calculate_contrast_ok (lum_grayLight_ok pow24) okd
  obtain ⟨c5, hc5⟩ := calculate_contrast_ok (lum_grayDark_ok pow24) okp
  obtain ⟨c6, hc6⟩ := calculate_contrast_ok (lum_grayDark_ok pow24) oks
  obtain ⟨c7, hc7⟩ := calculate_contrast_ok (lum_grayDark_ok pow24) okl
  obtain ⟨c8, hc8⟩ := calculate_contrast_ok (lum_grayDark_ok pow24) okd
  refine ⟨[("texto-claro sobre primary", contrastEntryOf c1),
           ("texto-claro sobre secondary", contrastEntryOf c2),
           ("texto-claro sobre primary-light", contrastEntryOf c3),
           ("texto-claro sobre primary-dark", contrastEntryOf c4),
           ("texto-escuro sobre primary", contrastEntryOf c5),
           ("texto-escuro sobre secondary", contrastEntryOf c6),
           ("texto-escuro sobre primary-light", contrastEntryOf c7),
           ("texto-escuro sobre primary-dark", contrastEntryOf c8)], ?_, rfl⟩
  rw [hred]
  simp only [analyze_body]
  rw [hpal2]
  rw [f1]; simp only [exb]
  rw [f2]; simp only [exb]
  rw [f3]; simp only [exb]
  rw [f4]; simp only [exb]
  rw [f5]; simp only [exb]
  rw [f6]; simp only [exb]
  rw [contrastStep_eq fb1 hc1]; simp only [exb]
  rw [contrastStep_eq fb2 hc2]; simp only [exb]
  rw [contrastStep_eq fb3 hc3]; simp only [exb]
  rw [contrastStep_eq fb4 hc4]; simp only [exb]
  rw [contrastStep_eq fb1 hc5]; simp only [exb]
  rw [contrastStep_eq fb2 hc6]; simp only [exb]
  rw [contrastStep_eq fb3 hc7]; simp only [exb]
  rw [contrastStep_eq fb4 hc8]; simp only [exb]
  rfl

/-- C2 counterexample: for the uniform-gray logo the generator produces a
palette in which `secondary` (and `accent`) collide with `primary`
(`"#808080"`), and the contrast report of that generated palette has only 6
entries instead of the full 2 × 4 = 8. -/
theorem c2_counterexample :
    Except.map (fun x => x.2.length)
      (exb (generate_color_palette grayAdapter)
        (fun pr => analyze_contrast (fun q => q) pr.1)) = .ok 6 := by
  with_unfolding_all rfl

/-- C2 witness: the amended theorem applied to the warm fixture, whose four
background role values are pairwise distinct. -/
theorem c2_witness :
    generate_color_palette warmAdapter = .ok (warmGenerated, warmPalette) ∧
    ∃ rep, analyze_contrast (fun q => q) warmGenerated = .ok (warmGenerated, rep) ∧
      rep.length = 8 := by
  have hgen : generate_color_palette warmAdapter = .ok (warmGenerated, warmPalette) := by
    with_unfolding_all rfl
  refine ⟨hgen, c2_report_eight (fun q => q) warmAdapter warmGenerated warmPalette hgen
    "#c86432" "#7b3d1e" "#ff7f3f" "#3296c8" rfl rfl rfl rfl
    (by decide) (by decide) (by decide) (by decide) (by decide) (by decide)
    ⟨_, by with_unfolding_all rfl⟩ ⟨_, by with_unfolding_all rfl⟩
    ⟨_, by with_unfolding_all rfl⟩ ⟨_, by with_unfolding_all rfl⟩⟩

/-! ### C10 — analysis from a fresh state regenerates and succeeds -/

theorem pymod1_nonneg (q : ℚ) : 0 ≤ pymod1 q := by
  unfold pymod1
  rw [ratFloor_eq_floor]
  have := Int.floor_le q
  linarith

theorem pymod1_lt_one (q : ℚ) : pymod1 q < 1 := by
  unfold pymod1
  rw [ratFloor_eq_floor]
  have := Int.lt_floor_add_one q
  linarith

theorem rgb_to_hsv_h_nonneg (r g b : ℚ) : 0 ≤ (rgb_to_hsv r g b).1 := by
  by_cases hmm : min r (min g b) = max r (max g b)
  · unfold rgb_to_hsv
    rw [if_pos hmm]
  · unfold rgb_to_hsv
    rw [if_neg hmm]
    exact pymod1_nonneg _

theorem rgb_to_hsv_s_bounds {r g b : ℚ} (hr0 : 0 ≤ r) (hg0 : 0 ≤ g) (hb0 : 0 ≤ b) :
    0 ≤ (rgb_to_hsv r g b).2.1 ∧ (rgb_to_hsv r g b).2.1 ≤ 1 := by
  by_cases hmm : min r (min g b) = max r (max g b)
  · unfold rgb_to_hsv
    rw [if_pos hmm]
    norm_num
  · have hminc0 : 0 ≤ min r (min g b) := le_min hr0 (le_min hg0 hb0)
    have hle : min r (min g b) ≤ max r (max g b) :=
      le_trans (min_le_left _ _) (le_max_left _ _)
    have hlt : min r (min g b) < max r (max g b) := lt_of_le_of_ne hle hmm
    have hmax0 : 0 < max r (max g b) := lt_of_le_of_lt hminc0 hlt
    unfold rgb_to_hsv
    rw [if_neg hmm]
    constructor
    · exact div_nonneg (by linarith) (le_of_lt hmax0)
    · rw [div_le_one hmax0]
      linarith

theorem rgb_to_hsv_v_bounds {r g b : ℚ} (hr0 : 0 ≤ r) (hr1 : r ≤ 1) (hg1 : g ≤ 1)
    (hb1 : b ≤ 1) : 0 ≤ (rgb_to_hsv r g b).2.2 ∧ (rgb_to_hsv r g b).2.2 ≤ 1 := by
  have h0 : 0 ≤ max r (max g b) := le_trans hr0 (le_max_left _ _)
  have h1 : max r (max g b) ≤ 1 := max_le hr1 (max_le hg1 hb1)
  by_cases hmm : min r (min g b) = max r (max g b)
  · unfold rgb_to_hsv
    rw [if_pos hmm]
    exact ⟨h0, h1⟩
  · unfold rgb_to_hsv
    rw [if_neg hmm]
    exact ⟨h0, h1⟩

theorem hsv_to_rgb_bounds {h s v : ℚ} (hh : 0 ≤ h) (hs0 : 0 ≤ s) (hs1 : s ≤ 1)
    (hv0 : 0 ≤ v) (hv1 : v ≤ 1) :
    (0 ≤ (hsv_to_rgb h s v).1 ∧ (hsv_to_rgb h s v).1 ≤ 1) ∧
    (0 ≤ (hsv_to_rgb h s v).2.1 ∧ (hsv_to_rgb h s v).2.1 ≤ 1) ∧
    (0 ≤ (hsv_to_rgb h s v).2.2 ∧ (hsv_to_rgb h s v).2.2 ≤ 1) := by
  unfold hsv_to_rgb
  by_cases hsz : s = 0
  · rw [if_pos hsz]
    exact ⟨⟨hv0, hv1⟩, ⟨hv0, hv1⟩, ⟨hv0, hv1⟩⟩
  · rw [if_neg hsz]
    have h6 : 0 ≤ h * 6 := by linarith
    have htr : pytrunc (h * 6) = Int.floor (h * 6) := by
      unfold pytrunc
      rw [if_neg (not_lt.mpr h6), ratFloor_eq_floor]
    have hf0 : 0 ≤ h * 6 - (pytrunc (h * 6) : ℚ) := by
      rw [htr]
      have := Int.floor_le (h * 6)
      linarith
    have hf1 : h * 6 - (pytrunc (h * 6) : ℚ) ≤ 1 := by
      rw [htr]
      have := Int.lt_floor_add_one (h * 6)
      linarith
    have hsf0 : 0 ≤ s * (h * 6 - (pytrunc (h * 6) : ℚ)) := mul_nonneg hs0 hf0
    have hsf1 : s * (h * 6 - (pytrunc (h * 6) : ℚ)) ≤ 1 := mul_le_one₀ hs1 hf0 hf1
    have hsg0 : 0 ≤ s * (1 - (h * 6 - (pytrunc (h * 6) : ℚ))) := mul_nonneg hs0 (by linarith)
    have hsg1 : s * (1 - (h * 6 - (pytrunc (h * 6) : ℚ))) ≤ 1 := mul_le_one₀ hs1 (by linarith) (by linarith)
    have hpb : 0 ≤ v * (1 - s) ∧ v * (1 - s) ≤ 1 :=
      ⟨mul_nonneg hv0 (by linarith), mul_le_one₀ hv1 (by linarith) (by linarith)⟩
    have hqb : 0 ≤ v * (1 - s * (h * 6 - (pytrunc (h * 6) : ℚ))) ∧
        v * (1 - s * (h * 6 - (pytrunc (h * 6) : ℚ))) ≤ 1 :=
      ⟨mul_nonneg hv0 (by linarith), mul_le_one₀ hv1 (by linarith) (by linarith)⟩
    have htb : 0 ≤ v * (1 - s * (1 - (h * 6 - (pytrunc (h * 6) : ℚ)))) ∧
        v * (1 - s * (1 - (h * 6 - (pytrunc (h * 6) : ℚ)))) ≤ 1 :=
      ⟨mul_nonneg hv0 (by linarith), mul_le_one₀ hv1 (by linarith) (by linarith)⟩
    dsimp only
    split_ifs <;>
      exact ⟨⟨by first | exact hv0 | exact hpb.1 | exact hqb.1 | exact htb.1,
              by first | exact hv1 | exact hpb.2 | exact hqb.2 | exact htb.2⟩,
             ⟨by first | exact hv0 | exact hpb.1 | exact hqb.1 | exact htb.1,
              by first | exact hv1 | exact hpb.2 | exact hqb.2 | exact htb.2⟩,
             ⟨by first | exact hv0 | exact hpb.1 | exact hqb.1 | exact htb.1,
              by first | exact hv1 | exact hpb.2 | exact hqb.2 | exact htb.2⟩⟩

theorem pytrunc_byte {x : ℚ} (h0 : 0 ≤ x) (h1 : x ≤ 1) :
    0 ≤ pytrunc (x * 255) ∧ pytrunc (x * 255) ≤ 255 := by
  have hx0 : 0 ≤ x * 255 := mul_nonneg h0 (by norm_num)
  unfold pytrunc
  rw [if_neg (not_lt.mpr hx0), ratFloor_eq_floor]
  constructor
  · exact Int.floor_nonneg.mpr hx0
  · have hx1 : x * 255 ≤ 255 := by linarith
    have h2 := Int.floor_le_floor hx1
    simpa using h2

theorem int255_inRange {c : Color3}
    (h1 : 0 ≤ c.1 ∧ c.1 ≤ 1) (h2 : 0 ≤ c.2.1 ∧ c.2.1 ≤ 1)
    (h3 : 0 ≤ c.2.2 ∧ c.2.2 ≤ 1) : rgbInRange (int255 c) := by
  unfold rgbInRange int255
  exact ⟨(pytrunc_byte h1.1 h1.2).1, (pytrunc_byte h1.1 h1.2).2,
    (pytrunc_byte h2.1 h2.2).1, (pytrunc_byte h2.1 h2.2).2,
    (pytrunc_byte h3.1 h3.2).1, (pytrunc_byte h3.1 h3.2).2⟩

set_option maxRecDepth 10000 in
theorem int_hex_toHex2 : ∀ n : ℕ, n < 256 →
    int_hex ((toHex2 (n : ℤ)).data) = .ok n ∧ (toHex2 (n : ℤ)).data.length = 2 := by
  decide

theorem int_hex_toHex2_int (n : ℤ) (h0 : 0 ≤ n) (h1 : n ≤ 255) :
    int_hex ((toHex2 n).data) = .ok n.toNat ∧ (toHex2 n).data.length = 2 := by
  have hn : n = (n.toNat : ℤ) := (Int.toNat_of_nonneg h0).symm
  have hlt : n.toNat < 256 := by omega
  rw [hn]
  exact int_hex_toHex2 n.toNat hlt

/-- Every hex string produced by `_rgb_to_hex` from an in-range RGB triple is
parsed back successfully by the analyzer's `get_luminance`. -/
theorem get_luminance_hex_ok (pow24 : ℚ → ℚ) {c : RGB} (h : rgbInRange c) :
    ∃ L, get_luminance pow24 (rgb_to_hex c) = .ok L := by
  obtain ⟨h10, h11, h20, h21, h30, h31⟩ := h
  obtain ⟨hx1, hl1⟩ := int_hex_toHex2_int c.1 h10 h11
  obtain ⟨hx2, hl2⟩ := int_hex_toHex2_int c.2.1 h20 h21
  obtain ⟨hx3, hl3⟩ := int_hex_toHex2_int c.2.2 h30 h31
  have hdata : (rgb_to_hex c).data =
      ('#' :: (toHex2 c.1).data) ++ (toHex2 c.2.1).data ++ (toHex2 c.2.2).data := by
    simp [rgb_to_hex, String.data_append]
  have hs1 : (((rgb_to_hex c).data).drop 1).take 2 = (toHex2 c.1).data := by
    rw [hdata, List.append_assoc, List.cons_append]
    simp only [List.drop_succ_cons, List.drop_zero]
    exact List.take_left' hl1
  have hs2 : (((rgb_to_hex c).data).drop 3).take 2 = (toHex2 c.2.1).data := by
    rw [hdata, List.append_assoc]
    rw [List.drop_left' (show ('#' :: (toHex2 c.1).data).length = 3 by simp [hl1])]
    exact List.take_left' hl2
  have hs3 : (((rgb_to_hex c).data).drop 5).take 2 = (toHex2 c.2.2).data := by
    rw [hdata]
    rw [List.drop_left' (show (('#' :: (toHex2 c.1).data) ++ (toHex2 c.2.1).data).length = 5 by
      simp [hl1, hl2])]
    rw [← hl3]
    exact List.take_length _
  simp only [get_luminance]
  simp only [hs1, hs2, hs3, hx1, hx2, hx3]
  simp only [exb]
  exact ⟨_, rfl⟩

theorem clamp01 (y : ℚ) : 0 ≤ max 0 (min 1 y) ∧ max 0 (min 1 y) ≤ 1 :=
  ⟨le_max_left _ _, max_le (by norm_num) (min_le_left _ _)⟩

theorem channel01 {x : ℤ} (h0 : 0 ≤ x) (h1 : x ≤ 255) :
    0 ≤ (x : ℚ) / 255 ∧ (x : ℚ) / 255 ≤ 1 := by
  constructor
  · exact div_nonneg (by exact_mod_cast h0) (by norm_num)
  · rw [div_le_one (by norm_num)]
    exact_mod_cast h1

/-- Any color derived by the generator — `hsv_to_rgb` at a nonnegative hue,
the primary's saturation, and a value in `[0,1]`, truncated to 8-bit — is an
in-range RGB triple. -/
theorem derived_inRange {p : RGB} (h : rgbInRange p) {hue v2 : ℚ}
    (hh : 0 ≤ hue) (hv20 : 0 ≤ v2) (hv21 : v2 ≤ 1) :
    rgbInRange (int255 (hsv_to_rgb hue (normHsv p).2.1 v2)) := by
  obtain ⟨h10, h11, h20, h21, h30, h31⟩ := h
  have c1 := channel01 h10 h11
  have c2 := channel01 h20 h21
  have c3 := channel01 h30 h31
  have hs := rgb_to_hsv_s_bounds c1.1 c2.1 c3.1
  have hb := hsv_to_rgb_bounds hh hs.1 hs.2 hv20 hv21
  exact int255_inRange hb.1 hb.2.1 hb.2.2

theorem firstBgKey_ok_of_mem {pal : Palette} {bg : String}
    (hmem : ∃ kv, kv ∈ pal ∧ kv.2 = bg) : ∃ k2, firstBgKey pal bg = .ok k2 := by
  obtain ⟨kv, hkv, hv⟩ := hmem
  have hne : (pal.filter fun x => x.2 == bg) ≠ [] :=
    List.ne_nil_of_mem (List.mem_filter.mpr ⟨hkv, by simp [hv]⟩)
  unfold firstBgKey
  cases hfil : (pal.filter fun x => x.2 == bg) with
  | nil => exact absurd hfil hne
  | cons a l => exact ⟨a.1, rfl⟩

theorem contrastStep_ok_ex (pow24 : ℚ → ℚ) (pal : Palette) (tn tc bg : String)
    (rep : ContrastReport) (hmem : ∃ kv, kv ∈ pal ∧ kv.2 = bg)
    (ht : ∃ L, get_luminance pow24 tc = .ok L)
    (hbg : ∃ L, get_luminance pow24 bg = .ok L) :
    ∃ rep2, contrastStep pow24 pal tn tc bg rep = .ok rep2 := by
  obtain ⟨bn, hbn⟩ := firstBgKey_ok_of_mem hmem
  obtain ⟨c, hc⟩ := calculate_contrast_ok ht hbg
  exact ⟨_, contrastStep_eq hbn hc⟩

/-- If all six role lookups succeed, each background value occurs in the
palette, and all six values parse as hex colors, the analyzer body returns a
report without mutating the state further. -/
theorem analyze_body_ok (pow24 : ℚ → ℚ) (st1 : Adapter) (gl gd pr sc pl pd : String)
    (f1 : requireRole st1.color_palette "gray-light" = .ok gl)
    (f2 : requireRole st1.color_palette "gray-dark" = .ok gd)
    (f3 : requireRole st1.color_palette "primary" = .ok pr)
    (f4 : requireRole st1.color_palette "secondary" = .ok sc)
    (f5 : requireRole st1.color_palette "primary-light" = .ok pl)
    (f6 : requireRole st1.color_palette "primary-dark" = .ok pd)
    (m1 : ∃ kv, kv ∈ st1.color_palette ∧ kv.2 = pr)
    (m2 : ∃ kv, kv ∈ st1.color_palette ∧ kv.2 = sc)
    (m3 : ∃ kv, kv ∈ st1.color_palette ∧ kv.2 = pl)
    (m4 : ∃ kv, kv ∈ st1.color_palette ∧ kv.2 = pd)
    (l1 : ∃ L, get_luminance pow24 gl = .ok L) (l2 : ∃ L, get_luminance pow24 gd = .ok L)
    (l3 : ∃ L, get_luminance pow24 pr = .ok L) (l4 : ∃ L, get_luminance pow24 sc = .ok L)
    (l5 : ∃ L, get_luminance pow24 pl = .ok L) (l6 : ∃ L, get_luminance pow24 pd = .ok L) :
    ∃ rep, analyze_body pow24 st1 = .ok (st1, rep) := by
  obtain ⟨r1, h1⟩ := contrastStep_ok_ex pow24 st1.color_palette
    "texto-claro" gl pr [] m1 l1 l3
  obtain ⟨r2, h2⟩ := contrastStep_ok_ex pow24 st1.color_palette
    "texto-claro" gl sc r1 m2 l1 l4
  obtain ⟨r3, h3⟩ := contrastStep_ok_ex pow24 st1.color_palette
    "texto-claro" gl pl r2 m3 l1 l5
  obtain ⟨r4, h4⟩ := contrastStep_ok_ex pow24 st1.color_palette
    "texto-claro" gl pd r3 m4 l1 l6
  obtain ⟨r5, h5⟩ := contrastStep_ok_ex pow24 st1.color_palette
    (if gd = gl then "texto-claro" else "texto-escuro") gd pr r4 m1 l2 l3
  obtain ⟨r6, h6⟩ := contrastStep_ok_ex pow24 st1.color_palette
    (if gd = gl then "texto-claro" else "texto-escuro") gd sc r5 m2 l2 l4
  obtain ⟨r7, h7⟩ := contrastStep_ok_ex pow24 st1.color_palette
    (if gd = gl then "texto-claro" else "texto-escuro") gd pl r6 m3 l2 l5
  obtain ⟨r8, h8⟩ := contrastStep_ok_ex pow24 st1.color_palette
    (if gd = gl then "texto-claro" else "texto-escuro") gd pd r7 m4 l2 l6
  refine ⟨r8, ?_⟩
  simp only [analyze_body, eq_self_iff_true, if_true]
  rw [f1]; simp only [exb]
  rw [f2]; simp only [exb]
  rw [f3]; simp only [exb]
  rw [f4]; simp only [exb]
  rw [f5]; simp only [exb]
  rw [f6]; simp only [exb]
  rw [h1]; simp only [exb]
  rw [h2]; simp only [exb]
  rw [h3]; simp only [exb]
  rw [h4]; simp only [exb]
  rw [h5]; simp only [exb]
  rw [h6]; simp only [exb]
  rw [h7]; simp only [exb]
  rw [h8]

/-- C10: calling contrast analysis on an adapter whose palette has never been
generated does not fail: it first runs palette generation (which itself runs
dominant-color extraction when the dominant list is empty) and returns a
report; the analyzer never sees an empty palette.  The hypotheses say exactly
that the pipeline state is well-formed: the dominant list (extracted if
needed) is non-empty and its head is an 8-bit RGB triple — always true of
real clustering output. -/
theorem c10_fresh_analyze_ok (pow24 : ℚ → ℚ) (st : Adapter)
    (hemp : st.color_palette = []) (p : RGB) (rest : List RGB)
    (hdom : (if st.dominant_colors.isEmpty then (extract_dominant_colors st 5).1
        else st).dominant_colors = p :: rest)
    (hrange : rgbInRange p) :
    ∃ st2 rep, analyze_contrast pow24 st = .ok (st2, rep) ∧ st2.color_palette ≠ [] := by
  have hgen0 : ∃ pr2, generate_color_palette st = .ok pr2 := by
    unfold generate_color_palette
    rw [generate_from_dominant.eq_def, hdom]
    exact ⟨_, rfl⟩
  obtain ⟨⟨st2, pal⟩, hgen⟩ := hgen0
  have hgen2 := hgen
  unfold generate_color_palette at hgen2
  obtain ⟨p2, rest2, tail, hdom2, hst, hpal⟩ := generate_from_dominant_shape hgen2
  rw [hdom] at hdom2
  injection hdom2 with e1 e2
  subst e1
  have hrange2 := hrange
  obtain ⟨h10, h11, h20, h21, h30, h31⟩ := hrange2
  have c1 := channel01 h10 h11
  have c2 := channel01 h20 h21
  have c3 := channel01 h30 h31
  have hvB := rgb_to_hsv_v_bounds c1.1 c1.2 c2.2 c3.2
  have lum_p : ∃ L, get_luminance pow24 (rgb_to_hex p) = .ok L :=
    get_luminance_hex_ok pow24 hrange
  have lum_s : ∃ L, get_luminance pow24 (spec_secondary_hex p) = .ok L :=
    get_luminance_hex_ok pow24 (derived_inRange hrange (pymod1_nonneg _) hvB.1 hvB.2)
  have lum_d : ∃ L, get_luminance pow24 (rgb_to_hex (adjust_brightness p (-0.3))) = .ok L := by
    rw [adjust_brightness_eq]
    exact get_luminance_hex_ok pow24
      (derived_inRange hrange (rgb_to_hsv_h_nonneg _ _ _) (clamp01 _).1 (clamp01 _).2)
  have lum_l : ∃ L, get_luminance pow24 (rgb_to_hex (adjust_brightness p 0.3)) = .ok L := by
    rw [adjust_brightness_eq]
    exact get_luminance_hex_ok pow24
      (derived_inRange hrange (rgb_to_hsv_h_nonneg _ _ _) (clamp01 _).1 (clamp01 _).2)
  have hpal2 : st2.color_palette = pal := by rw [hst]
  have hne2 : st2.color_palette ≠ [] := by
    rw [hpal2, hpal]
    simp
  obtain ⟨rep, hrep⟩ := analyze_body_ok pow24 st2 "#f0f0f0" "#323232" (rgb_to_hex p)
    (spec_secondary_hex p) (rgb_to_hex (adjust_brightness p 0.3))
    (rgb_to_hex (adjust_brightness p (-0.3)))
    (by rw [hpal2, hpal]; simp [requireRole, dictGet?])
    (by rw [hpal2, hpal]; simp [requireRole, dictGet?])
    (by rw [hpal2, hpal]; simp [requireRole, dictGet?])
    (by rw [hpal2, hpal]; simp [requireRole, dictGet?])
    (by rw [hpal2, hpal]; simp [requireRole, dictGet?])
    (by rw [hpal2, hpal]; simp [requireRole, dictGet?])
    ⟨("primary", rgb_to_hex p), by rw [hpal2, hpal]; simp, rfl⟩
    ⟨("secondary", spec_secondary_hex p), by rw [hpal2, hpal]; simp, rfl⟩
    ⟨("primary-light", rgb_to_hex (adjust_brightness p 0.3)), by rw [hpal2, hpal]; simp, rfl⟩
    ⟨("primary-dark", rgb_to_hex (adjust_brightness p (-0.3))), by rw [hpal2, hpal]; simp, rfl⟩
    (lum_grayLight_ok pow24) (lum_grayDark_ok pow24) lum_p lum_s lum_l lum_d
  refine ⟨st2, rep, ?_, hne2⟩
  unfold analyze_contrast
  rw [if_pos (by simp [hemp]), hgen]
  exact hrep

/-- C10 witness: the theorem applied to a fresh red adapter. -/
theorem c10_witness :
    redAdapter.color_palette = [] ∧
    ∃ st2 rep, analyze_contrast (fun q => q) redAdapter = .ok (st2, rep) ∧
      st2.color_palette ≠ [] :=
  ⟨rfl, c10_fresh_analyze_ok (fun q => q) redAdapter rfl (255, 0, 0) []
    (by with_unfolding_all rfl) (by decide)⟩
